import Mathlib

/-!
Verification of the mcp-nevent repository: a shallow embedding of the
transport client (`NeventClient` in src/client/nevent-client.ts) and of the
tool dispatcher (`CallToolRequestSchema` handler in src/index.ts, with the
tool functions of src/tools/users.ts, src/tools/campaigns.ts and
src/tools/lineup.ts), together with theorems settling the specification
claims about them.

Modelling conventions:
* JavaScript runtime values reaching this code are JSON values (tool
  arguments arrive over JSON-RPC, response bodies are decoded JSON), so they
  are modelled by the inductive `JsVal`.  JS numbers are modelled as
  integers (`Int`); every number occurring in the claims is integral.
* `undefined` is modelled as `Option.none` at the positions where the source
  types or dataflow allow it (optional record fields, absent argument-bag
  keys, optional function parameters).  A JS object literal written with
  possibly-`undefined` members is built with `JsObj.ofOptList`, which drops
  the `undefined` members — exactly what `JSON.stringify` does to them, and
  the only way those objects are consumed is by `JSON.stringify`.
* `fetch` is modelled as an oracle `ClientCall → Except String HttpResponse`;
  the `.error` case is a thrown network fault.  `Response.ok` is, per the
  fetch specification, `200 ≤ status ≤ 299`.
-/

set_option maxHeartbeats 1000000

namespace Nevent

-- A JavaScript/JSON value.  Arrays and objects use bespoke list types so
-- that every function on values is structurally recursive (and hence reduces
-- inside the kernel).
mutual

inductive JsVal where
  | null : JsVal
  | bool : Bool → JsVal
  | num : Int → JsVal
  | str : String → JsVal
  | arr : JsArr → JsVal
  | obj : JsObj → JsVal

inductive JsArr where
  | nil : JsArr
  | cons : JsVal → JsArr → JsArr

inductive JsObj where
  | nil : JsObj
  | cons : String → JsVal → JsObj → JsObj

end

/-- Property read `o[k]`: first binding of key `k`, `none` when absent
(JS `undefined`). -/
def JsObj.lookup : JsObj → String → Option JsVal
  | .nil, _ => none
  | .cons k v rest, key => if k = key then some v else rest.lookup key

/-- Whether the object has a member named `k`. -/
def JsObj.hasKey : JsObj → String → Bool
  | .nil, _ => false
  | .cons k _ rest, key => k = key || rest.hasKey key

/-- Rest destructuring `const \x7bk: _, ...rest\x7d = o`: every member except
`k`. -/
def JsObj.removeKey : JsObj → String → JsObj
  | .nil, _ => .nil
  | .cons k v rest, key =>
      if k = key then rest.removeKey key else .cons k v (rest.removeKey key)

/-- Concatenation of two member lists (object spread of disjoint parts). -/
def JsObj.append : JsObj → JsObj → JsObj
  | .nil, o => o
  | .cons k v rest, o => .cons k v (rest.append o)

/-- A member `k: v` where `v` may be `undefined`: present when defined,
absent otherwise (the `JSON.stringify` view of an `undefined` member). -/
def JsObj.optEntry (k : String) : Option JsVal → JsObj
  | none => .nil
  | some v => .cons k v .nil

/-- An object literal whose members may be `undefined`, keeping only the
defined ones. -/
def JsObj.ofOptList : List (String × Option JsVal) → JsObj
  | [] => .nil
  | (_, none) :: rest => ofOptList rest
  | (k, some v) :: rest => .cons k v (ofOptList rest)

/-- The member keys, in order. -/
def JsObj.keys : JsObj → List String
  | .nil => []
  | .cons k _ rest => k :: rest.keys

/-- JavaScript truthiness of a JSON value (`NaN` cannot occur in a JSON
value, so a number is falsy exactly when it is `0`). -/
def truthy : JsVal → Bool
  | .null => false
  | .bool b => b
  | .num n => n != 0
  | .str s => s ≠ ""
  | .arr _ => true
  | .obj _ => true

/-- The `??` operator applied to a possibly-absent value: `none` (absent,
hence `undefined`) and `null` both fall through to the default. -/
def nullish : Option JsVal → JsVal → JsVal
  | none, d => d
  | some .null, d => d
  | some v, _ => v

/-- A defaulted function parameter: the default fires on `undefined` only
(`null` is passed through). -/
def defParam : Option JsVal → JsVal → JsVal
  | none, d => d
  | some v, _ => v

-- `String(v)` for a JSON value: `null` prints `null`, arrays print as
-- `Array.prototype.toString` (elements joined by commas, `null` elements
-- empty), objects print `[object Object]`.
mutual

def jsToString : JsVal → String
  | .null => "null"
  | .bool b => cond b "true" "false"
  | .num n => toString n
  | .str s => s
  | .arr a => jsArrToString a
  | .obj _ => "[object Object]"

def jsArrToString : JsArr → String
  | .nil => ""
  | .cons .null .nil => ""
  | .cons x .nil => jsToString x
  | .cons .null rest => "," ++ jsArrToString rest
  | .cons x rest => jsToString x ++ "," ++ jsArrToString rest

end

/-- A template-literal interpolation `${x}` where `x` may be `undefined`. -/
def tmpl : Option JsVal → String
  | none => "undefined"
  | some v => jsToString v

/-- Upper-case hexadecimal digit. -/
def hexDigit (n : Nat) : Char :=
  if n < 10 then Char.ofNat (48 + n) else Char.ofNat (55 + n)

/-- One JSON string-escape unit for a character. -/
def jsonEscapeChar (c : Char) : String :=
  if c = '"' then "\\\""
  else if c = '\\' then "\\\\"
  else if c = '\n' then "\\n"
  else if c = '\t' then "\\t"
  else if c = '\r' then "\\r"
  else if c.toNat = 8 then "\\b"
  else if c.toNat = 12 then "\\f"
  else if c.toNat < 32 then
    "\\u00" ++ String.singleton (hexDigit (c.toNat / 16)) ++
      String.singleton (hexDigit (c.toNat % 16))
  else String.singleton c

/-- A JSON string literal for `s` (the quoting `JSON.stringify` performs). -/
def jsonQuote (s : String) : String :=
  "\"" ++ String.join (s.toList.map jsonEscapeChar) ++ "\""

-- `JSON.stringify(v)` (compact form, no indent argument).  Members whose
-- value was `undefined` were already dropped by `JsObj.ofOptList`, matching
-- `JSON.stringify`'s treatment of them.
mutual

def jsonStringify : JsVal → String
  | .null => "null"
  | .bool b => cond b "true" "false"
  | .num n => toString n
  | .str s => jsonQuote s
  | .arr a => "[" ++ jsonArrBody a ++ "]"
  | .obj o => "\x7b" ++ jsonObjBody o ++ "\x7d"

def jsonArrBody : JsArr → String
  | .nil => ""
  | .cons x .nil => jsonStringify x
  | .cons x rest => jsonStringify x ++ "," ++ jsonArrBody rest

def jsonObjBody : JsObj → String
  | .nil => ""
  | .cons k v .nil => jsonQuote k ++ ":" ++ jsonStringify v
  | .cons k v rest => jsonQuote k ++ ":" ++ jsonStringify v ++ "," ++ jsonObjBody rest

end

/-- `n` spaces. -/
def spaces (n : Nat) : String :=
  String.mk (List.replicate n ' ')

-- `JSON.stringify(v, null, 2)`: two-space indented pretty form, as the
-- dispatcher renders successful results.  `ind` is the current nesting depth.
mutual

def prettyStringify : JsVal → Nat → String
  | .null, _ => "null"
  | .bool b, _ => cond b "true" "false"
  | .num n, _ => toString n
  | .str s, _ => jsonQuote s
  | .arr .nil, _ => "[]"
  | .arr a, ind =>
      "[\n" ++ prettyArrBody a (ind + 1) ++ "\n" ++ spaces (2 * ind) ++ "]"
  | .obj .nil, _ => "\x7b\x7d"
  | .obj o, ind =>
      "\x7b\n" ++ prettyObjBody o (ind + 1) ++ "\n" ++ spaces (2 * ind) ++ "\x7d"

def prettyArrBody : JsArr → Nat → String
  | .nil, _ => ""
  | .cons x .nil, ind => spaces (2 * ind) ++ prettyStringify x ind
  | .cons x rest, ind =>
      spaces (2 * ind) ++ prettyStringify x ind ++ ",\n" ++ prettyArrBody rest ind

def prettyObjBody : JsObj → Nat → String
  | .nil, _ => ""
  | .cons k v .nil, ind => spaces (2 * ind) ++ jsonQuote k ++ ": " ++ prettyStringify v ind
  | .cons k v rest, ind =>
      spaces (2 * ind) ++ jsonQuote k ++ ": " ++ prettyStringify v ind ++ ",\n" ++
        prettyObjBody rest ind

end

/-- UTF-8 bytes of a character, computed from its code point. -/
def utf8Bytes (c : Char) : List Nat :=
  let n := c.toNat
  if n < 128 then [n]
  else if n < 2048 then [192 + n / 64, 128 + n % 64]
  else if n < 65536 then [224 + n / 4096, 128 + n / 64 % 64, 128 + n % 64]
  else [240 + n / 262144, 128 + n / 4096 % 64, 128 + n / 64 % 64, 128 + n % 64]

/-- A percent-encoded byte, `%XY` with upper-case hex. -/
def percentByte (b : Nat) : String :=
  "%" ++ String.singleton (hexDigit (b / 16)) ++ String.singleton (hexDigit (b % 16))

/-- One character under `application/x-www-form-urlencoded` serialization
(the encoding `URLSearchParams` applies when the URL is rendered): space
becomes `+`; ASCII alphanumerics and `*-._` stay; all else is
percent-encoded byte-wise. -/
def formEncodeChar (c : Char) : String :=
  let n := c.toNat
  if n = 32 then "+"
  else if (48 ≤ n && n ≤ 57) || (65 ≤ n && n ≤ 90) || (97 ≤ n && n ≤ 122) ||
      n = 42 || n = 45 || n = 46 || n = 95 then String.singleton c
  else String.join ((utf8Bytes c).map percentByte)

/-- `application/x-www-form-urlencoded` serialization of a string. -/
def formEncode (s : String) : String :=
  String.join (s.toList.map formEncodeChar)

/-- One character under `encodeURIComponent`: unreserved characters
(alphanumerics and `-_.!~*'()`) stay, all else is percent-encoded
byte-wise. -/
def encodeURIComponentChar (c : Char) : String :=
  let n := c.toNat
  if (48 ≤ n && n ≤ 57) || (65 ≤ n && n ≤ 90) || (97 ≤ n && n ≤ 122) ||
      n = 45 || n = 95 || n = 46 || n = 33 || n = 126 || n = 42 || n = 39 ||
      n = 40 || n = 41 then String.singleton c
  else String.join ((utf8Bytes c).map percentByte)

/-- `encodeURIComponent(s)`. -/
def encodeURIComponent (s : String) : String :=
  String.join (s.toList.map encodeURIComponentChar)

/-- Remove one trailing `/` from a character list. -/
def stripLastSlash : List Char → List Char
  | [] => []
  | [c] => if c = '/' then [] else [c]
  | c :: rest => c :: stripLastSlash rest

/-- `baseUrl.replace(/\/$/, '')`: strip a single trailing slash. -/
def stripTrailingSlash (s : String) : String :=
  String.mk (stripLastSlash s.toList)

/-- The stored state of a `NeventClient` (its two private fields). -/
structure NeventClient where
  baseUrl : String
  jwtToken : String

/-- The configuration object literal built in `src/index.ts`.  The
`NeventClientConfig` interface in `src/client/nevent-client.ts` declares only
`baseUrl` and `jwtToken`; the call site additionally passes `tenantId` (from
`NEVENT_TENANT_ID`), so the literal is modelled with all three members. -/
structure NeventClientConfig where
  baseUrl : String
  jwtToken : String
  tenantId : Option String

/-- The `NeventClient` constructor: stores the base URL with one trailing
slash stripped and the JWT token.  It reads no other member of the config. -/
def NeventClient.construct (config : NeventClientConfig) : NeventClient :=
  { baseUrl := stripTrailingSlash config.baseUrl
    jwtToken := config.jwtToken }

/-- The `options` argument of `NeventClient.request`: optional body and
optional query-parameter record.  A parameter value of `none` is a member
whose value is `undefined`. -/
structure RequestOptions where
  body : Option JsVal := none
  params : Option (List (String × Option JsVal)) := none

/-- The query-parameter loop of `request`: each member with a defined value
is appended as `(key, String(value))`; `undefined` members are skipped. -/
def buildQueryPairs (ps : List (String × Option JsVal)) : List (String × String) :=
  ps.filterMap fun p =>
    match p.2 with
    | some v => some (p.1, jsToString v)
    | none => none

/-- Strings joined by a separator (structural `String.intercalate`). -/
def joinSep (sep : String) : List String → String
  | [] => ""
  | [x] => x
  | x :: rest => x ++ sep ++ joinSep sep rest

/-- The serialized query string of the appended pairs, as `URLSearchParams`
renders it: form-urlencoded `key=value` components joined by `&`. -/
def renderQuery (qp : List (String × String)) : String :=
  joinSep "&" (qp.map fun p => formEncode p.1 ++ "=" ++ formEncode p.2)

/-- Everything `request` hands to `fetch`: the URL (base + path + query),
the headers, and the optional string payload. -/
structure OutgoingRequest where
  method : String
  url : String
  queryPairs : List (String × String)
  headers : List (String × String)
  payload : Option String

/-- The request-construction half of `NeventClient.request` (lines up to the
`fetch` call): builds the URL with the defined query parameters, sets the
`Authorization` and `Content-Type` headers, and attaches
`JSON.stringify(body)` when the body is truthy and the method is not GET. -/
def NeventClient.request (client : NeventClient) (method path : String)
    (options : RequestOptions) : OutgoingRequest :=
  let qp := buildQueryPairs (options.params.getD [])
  { method := method
    url := client.baseUrl ++ path ++ (if qp.isEmpty then "" else "?" ++ renderQuery qp)
    queryPairs := qp
    headers := [("Authorization", "Bearer " ++ client.jwtToken),
                ("Content-Type", "application/json")]
    payload :=
      match options.body with
      | some b => if truthy b && method != "GET" then some (jsonStringify b) else none
      | none => none }

/-- An HTTP response as `request` observes it: status, status text, whether
the `content-type` header contains `application/json`, and the body (decoded
JSON when it does, raw text otherwise). -/
structure HttpResponse where
  status : Nat
  statusText : String
  contentTypeJson : Bool
  jsonBody : JsVal
  textBody : String

/-- `Response.ok` per the fetch specification: status in the 2xx range. -/
def respOk (r : HttpResponse) : Bool :=
  200 ≤ r.status && r.status ≤ 299

/-- The decoded `data`: JSON body when the content type indicates JSON,
otherwise the body text as a string value. -/
def responseData (r : HttpResponse) : JsVal :=
  if r.contentTypeJson then r.jsonBody else .str r.textBody

/-- The guard `typeof data === 'object' && data !== null && 'message' in
data` followed by the member read: only non-null objects can carry a
`message` member (a decoded JSON array has no `message` property, and the
guard does not check that the value is a string). -/
def messageMember : JsVal → Option JsVal
  | .obj o => o.lookup "message"
  | _ => none

/-- The envelope `request` resolves with on a 2xx response. -/
structure ApiResponse where
  data : JsVal
  status : Nat
  ok : Bool

/-- The response half of `NeventClient.request`: on `ok`, the
`\x7bdata, status, ok\x7d` envelope; otherwise a thrown `Error` whose message
is the body's `message` member when the guard passes (stringified, as the
`Error` constructor does) and the synthesized `HTTP <status>: <statusText>`
string otherwise. -/
def processResponse (r : HttpResponse) : Except String ApiResponse :=
  let data := responseData r
  if respOk r then
    .ok { data := data, status := r.status, ok := respOk r }
  else
    .error (match messageMember data with
      | some v => jsToString v
      | none => "HTTP " ++ toString r.status ++ ": " ++ r.statusText)

/-!
The tool layer.  Each tool function in `src/tools/*.ts` performs exactly one
client call through the convenience wrappers `get/post/put/patch/delete`; it
is modelled as the `(method, path, options)` triple it hands to
`NeventClient.request`.  Arguments typed `string`/`number` in the source are
modelled as `Option JsVal` because the dispatcher feeds them straight from
the untyped argument bag through unchecked casts (an absent key arrives as
`undefined`, i.e. `none`).
-/

/-- One client invocation: the `(method, path, options)` triple a tool
function passes to `NeventClient.request`. -/
structure ClientCall where
  method : String
  path : String
  body : Option JsVal := none
  params : Option (List (String × Option JsVal)) := none

/-- `client.get(path, params?)`. -/
def clientGet (path : String) (params : Option (List (String × Option JsVal))) : ClientCall :=
  { method := "GET", path := path, params := params }

/-- `client.post(path, body?)`. -/
def clientPost (path : String) (body : Option JsVal) : ClientCall :=
  { method := "POST", path := path, body := body }

/-- `client.put(path, body?)`. -/
def clientPut (path : String) (body : Option JsVal) : ClientCall :=
  { method := "PUT", path := path, body := body }

/-- `client.patch(path, body?)`. -/
def clientPatch (path : String) (body : Option JsVal) : ClientCall :=
  { method := "PATCH", path := path, body := body }

/-- `client.delete(path)`. -/
def clientDelete (path : String) : ClientCall :=
  { method := "DELETE", path := path }

-- ==================== src/tools/users.ts ====================

/-- `listUsers`: GET `/users` with pagination defaults and pass-through
filters (the dispatcher passes the whole argument bag as `params`). -/
def listUsers (params : JsObj) : ClientCall :=
  clientGet "/users" (some [
    ("page", some (nullish (params.lookup "page") (.num 0))),
    ("size", some (nullish (params.lookup "size") (.num 20))),
    ("sort", params.lookup "sort"),
    ("email", params.lookup "email"),
    ("name", params.lookup "name"),
    ("phone", params.lookup "phone"),
    ("createdFrom", params.lookup "createdFrom"),
    ("createdTo", params.lookup "createdTo"),
    ("eventId", params.lookup "eventId"),
    ("listId", params.lookup "listId")])

/-- `getUser`. -/
def getUser (userId : Option JsVal) : ClientCall :=
  clientGet ("/users/" ++ tmpl userId) none

/-- `getUserByEmail` (the one path segment built with
`encodeURIComponent`). -/
def getUserByEmail (email : Option JsVal) : ClientCall :=
  clientGet ("/users/email/" ++ encodeURIComponent (tmpl email)) none

/-- `createUser`. -/
def createUser (userData : JsObj) : ClientCall :=
  clientPost "/users" (some (.obj userData))

/-- `updateUser`. -/
def updateUser (userId : Option JsVal) (userData : JsObj) : ClientCall :=
  clientPut ("/users/" ++ tmpl userId) (some (.obj userData))

/-- `deleteUser`. -/
def deleteUser (userId : Option JsVal) : ClientCall :=
  clientDelete ("/users/" ++ tmpl userId)

/-- `getUserPurchases`. -/
def getUserPurchases (userId page size : Option JsVal) : ClientCall :=
  clientGet ("/users/" ++ tmpl userId ++ "/purchases") (some [
    ("page", some (nullish page (.num 0))),
    ("size", some (nullish size (.num 20)))])

/-- `getUserEvents`. -/
def getUserEvents (userId page size type : Option JsVal) : ClientCall :=
  clientGet ("/users/" ++ tmpl userId ++ "/events") (some [
    ("page", some (nullish page (.num 0))),
    ("size", some (nullish size (.num 20))),
    ("type", type)])

/-- `getPropertyDefinitions`. -/
def getPropertyDefinitions (params : JsObj) : ClientCall :=
  clientGet "/properties" (some [("type", params.lookup "type")])

/-- `createPropertyDefinition`. -/
def createPropertyDefinition (property : JsObj) : ClientCall :=
  clientPost "/properties" (some (.obj property))

/-- `getUserCommunicationPreferences`. -/
def getUserCommunicationPreferences (userId : Option JsVal) : ClientCall :=
  clientGet ("/users/" ++ tmpl userId ++ "/communication-preferences") none

/-- `updateUserCommunicationPreferences`. -/
def updateUserCommunicationPreferences (userId : Option JsVal)
    (preferences : JsObj) : ClientCall :=
  clientPut ("/users/" ++ tmpl userId ++ "/communication-preferences")
    (some (.obj preferences))

/-- `getUserCount`. -/
def getUserCount : ClientCall :=
  clientGet "/users/count" none

/-- `exportUsers`: posts the caller's params object verbatim as the body
(no default is applied to `format` in code). -/
def exportUsers (params : JsObj) : ClientCall :=
  clientPost "/users/export" (some (.obj params))

-- ==================== src/tools/campaigns.ts ====================

/-- `listCampaigns`. -/
def listCampaigns (params : JsObj) : ClientCall :=
  clientGet "/campaigns" (some [
    ("page", some (nullish (params.lookup "page") (.num 0))),
    ("size", some (nullish (params.lookup "size") (.num 20))),
    ("sort", params.lookup "sort"),
    ("type", params.lookup "type"),
    ("status", params.lookup "status")])

/-- `getCampaign`. -/
def getCampaign (campaignId : Option JsVal) : ClientCall :=
  clientGet ("/campaigns/" ++ tmpl campaignId) none

/-- `createCampaign`. -/
def createCampaign (campaign : JsObj) : ClientCall :=
  clientPost "/campaigns" (some (.obj campaign))

/-- `updateCampaign`. -/
def updateCampaign (campaignId : Option JsVal) (campaign : JsObj) : ClientCall :=
  clientPut ("/campaigns/" ++ tmpl campaignId) (some (.obj campaign))

/-- `deleteCampaign`. -/
def deleteCampaign (campaignId : Option JsVal) : ClientCall :=
  clientDelete ("/campaigns/" ++ tmpl campaignId)

/-- `sendCampaign`. -/
def sendCampaign (campaignId : Option JsVal) : ClientCall :=
  clientPost ("/campaigns/" ++ tmpl campaignId ++ "/send") none

/-- `scheduleCampaign`. -/
def scheduleCampaign (campaignId scheduledAt : Option JsVal) : ClientCall :=
  clientPost ("/campaigns/" ++ tmpl campaignId ++ "/schedule")
    (some (.obj (JsObj.optEntry "scheduledAt" scheduledAt)))

/-- `pauseCampaign`. -/
def pauseCampaign (campaignId : Option JsVal) : ClientCall :=
  clientPost ("/campaigns/" ++ tmpl campaignId ++ "/pause") none

/-- `resumeCampaign`: the typed function for POST
`/campaigns/\x7bid\x7d/resume` — defined in `src/tools/campaigns.ts` but
registered in neither the tool catalog nor the dispatch table. -/
def resumeCampaign (campaignId : Option JsVal) : ClientCall :=
  clientPost ("/campaigns/" ++ tmpl campaignId ++ "/resume") none

/-- `cancelCampaign`. -/
def cancelCampaign (campaignId : Option JsVal) : ClientCall :=
  clientPost ("/campaigns/" ++ tmpl campaignId ++ "/cancel") none

/-- `getCampaignMetrics`. -/
def getCampaignMetrics (campaignId : Option JsVal) : ClientCall :=
  clientGet ("/campaigns/" ++ tmpl campaignId ++ "/metrics") none

/-- `sendTestCampaign`. -/
def sendTestCampaign (campaignId testEmails : Option JsVal) : ClientCall :=
  clientPost ("/campaigns/" ++ tmpl campaignId ++ "/test")
    (some (.obj (JsObj.optEntry "emails" testEmails)))

/-- `duplicateCampaign`. -/
def duplicateCampaign (campaignId : Option JsVal) : ClientCall :=
  clientPost ("/campaigns/" ++ tmpl campaignId ++ "/duplicate") none

/-- `listSegments`. -/
def listSegments (params : JsObj) : ClientCall :=
  clientGet "/segments" (some [
    ("page", some (nullish (params.lookup "page") (.num 0))),
    ("size", some (nullish (params.lookup "size") (.num 20))),
    ("sort", params.lookup "sort")])

/-- `getSegment`. -/
def getSegment (segmentId : Option JsVal) : ClientCall :=
  clientGet ("/segments/" ++ tmpl segmentId) none

/-- `createSegment`. -/
def createSegment (segment : JsObj) : ClientCall :=
  clientPost "/segments" (some (.obj segment))

/-- `updateSegment`. -/
def updateSegment (segmentId : Option JsVal) (segment : JsObj) : ClientCall :=
  clientPut ("/segments/" ++ tmpl segmentId) (some (.obj segment))

/-- `deleteSegment`. -/
def deleteSegment (segmentId : Option JsVal) : ClientCall :=
  clientDelete ("/segments/" ++ tmpl segmentId)

/-- `previewSegment`: posts the `criteria` argument itself as the body. -/
def previewSegment (criteria : Option JsVal) : ClientCall :=
  clientPost "/segments/preview" criteria

/-- `executeSegment`. -/
def executeSegment (segmentId : Option JsVal) : ClientCall :=
  clientPost ("/segments/" ++ tmpl segmentId ++ "/execute") none

/-- `listEmailTemplates`. -/
def listEmailTemplates (params : JsObj) : ClientCall :=
  clientGet "/templates/email" (some [
    ("page", some (nullish (params.lookup "page") (.num 0))),
    ("size", some (nullish (params.lookup "size") (.num 20))),
    ("sort", params.lookup "sort")])

/-- `getEmailTemplate`. -/
def getEmailTemplate (templateId : Option JsVal) : ClientCall :=
  clientGet ("/templates/email/" ++ tmpl templateId) none

/-- `createEmailTemplate`. -/
def createEmailTemplate (template : JsObj) : ClientCall :=
  clientPost "/templates/email" (some (.obj template))

/-- `updateEmailTemplate`. -/
def updateEmailTemplate (templateId : Option JsVal) (template : JsObj) : ClientCall :=
  clientPut ("/templates/email/" ++ tmpl templateId) (some (.obj template))

/-- `deleteEmailTemplate`. -/
def deleteEmailTemplate (templateId : Option JsVal) : ClientCall :=
  clientDelete ("/templates/email/" ++ tmpl templateId)

/-- `renderEmailTemplate`. -/
def renderEmailTemplate (templateId : Option JsVal) : ClientCall :=
  clientGet ("/templates/email/" ++ tmpl templateId ++ "/render") none

/-- `generateEmailContent`: body `\x7bprompt, ...options\x7d`. -/
def generateEmailContent (prompt : Option JsVal) (options : JsObj) : ClientCall :=
  clientPost "/campaigns/generate"
    (some (.obj ((JsObj.optEntry "prompt" prompt).append options)))

-- ==================== src/tools/lineup.ts ====================

/-- `createPerformer`. -/
def createPerformer (data : JsObj) : ClientCall :=
  clientPost "/admin/performers" (some (.obj data))

/-- `searchSpotify` (`limit` is a defaulted parameter, default `10`). -/
def searchSpotify (query limit : Option JsVal) : ClientCall :=
  clientGet "/admin/performers/spotify/search" (some [
    ("query", query),
    ("limit", some (defParam limit (.num 10)))])

/-- `searchPerformers` (`limit` defaulted to `10`). -/
def searchPerformers (query limit : Option JsVal) : ClientCall :=
  clientGet "/admin/performers/search" (some [
    ("query", query),
    ("limit", some (defParam limit (.num 10)))])

/-- `linkPerformerSpotify`. -/
def linkPerformerSpotify (performerId : Option JsVal) (data : JsObj) : ClientCall :=
  clientPost ("/admin/performers/" ++ tmpl performerId ++ "/link-spotify")
    (some (.obj data))

/-- `unlinkPerformerFromMaster`. -/
def unlinkPerformerFromMaster (performerId : Option JsVal) : ClientCall :=
  clientPost ("/admin/performers/" ++ tmpl performerId ++ "/unlink-master") none

/-- `updatePerformer`. -/
def updatePerformer (performerId : Option JsVal) (data : JsObj) : ClientCall :=
  clientPatch ("/admin/performers/" ++ tmpl performerId) (some (.obj data))

/-- `getPerformer` (`includeMaster` is a defaulted parameter, default
`false`, and is always placed in the query). -/
def getPerformer (performerId includeMaster : Option JsVal) : ClientCall :=
  clientGet ("/admin/performers/" ++ tmpl performerId) (some [
    ("includeMaster", some (defParam includeMaster (.bool false)))])

/-- `listPerformers`. -/
def listPerformers (page size sort : Option JsVal) : ClientCall :=
  clientGet "/admin/performers" (some [
    ("page", some (nullish page (.num 0))),
    ("size", some (nullish size (.num 20))),
    ("sort", sort)])

/-- `deletePerformer`. -/
def deletePerformer (performerId : Option JsVal) : ClientCall :=
  clientDelete ("/admin/performers/" ++ tmpl performerId)

/-- `createPerformerFromMaster`. -/
def createPerformerFromMaster (masterPerformerId : Option JsVal) : ClientCall :=
  clientPost ("/admin/performers/from-master-performer/" ++ tmpl masterPerformerId) none

/-- `getPerformerLikes`. -/
def getPerformerLikes (performerId page size : Option JsVal) : ClientCall :=
  clientGet ("/admin/performers/" ++ tmpl performerId ++ "/likes") (some [
    ("page", some (nullish page (.num 0))),
    ("size", some (nullish size (.num 20)))])

/-- `listEventSessions`. -/
def listEventSessions (eventId date stage isPublished : Option JsVal) : ClientCall :=
  clientGet ("/admin/events/" ++ tmpl eventId ++ "/sessions") (some [
    ("date", date),
    ("stage", stage),
    ("isPublished", isPublished)])

/-- `createSession`: body `\x7b...data, eventId\x7d` — the extracted
`eventId` is spread back into the posted body after the remaining data. -/
def createSession (eventId : Option JsVal) (data : JsObj) : ClientCall :=
  clientPost ("/admin/events/" ++ tmpl eventId ++ "/sessions")
    (some (.obj (data.append (JsObj.optEntry "eventId" eventId))))

/-- `updateSession`. -/
def updateSession (sessionId : Option JsVal) (data : JsObj) : ClientCall :=
  clientPatch ("/admin/sessions/" ++ tmpl sessionId) (some (.obj data))

/-- `getSession`. -/
def getSession (sessionId : Option JsVal) : ClientCall :=
  clientGet ("/admin/sessions/" ++ tmpl sessionId) none

/-- `deleteSession`. -/
def deleteSession (sessionId : Option JsVal) : ClientCall :=
  clientDelete ("/admin/sessions/" ++ tmpl sessionId)

/-- `addPerformerToSession`. -/
def addPerformerToSession (sessionId : Option JsVal) (data : JsObj) : ClientCall :=
  clientPost ("/admin/sessions/" ++ tmpl sessionId ++ "/performers")
    (some (.obj data))

/-- `removePerformerFromSession`. -/
def removePerformerFromSession (sessionId performerId : Option JsVal) : ClientCall :=
  clientDelete ("/admin/sessions/" ++ tmpl sessionId ++ "/performers/" ++ tmpl performerId)

/-- `reorderSessionPerformers`: puts the `newOrders` argument itself as the
body. -/
def reorderSessionPerformers (sessionId newOrders : Option JsVal) : ClientCall :=
  clientPut ("/admin/sessions/" ++ tmpl sessionId ++ "/performers/reorder") newOrders

/-- `publishSession`. -/
def publishSession (sessionId isPublished : Option JsVal) : ClientCall :=
  clientPatch ("/admin/sessions/" ++ tmpl sessionId ++ "/publish")
    (some (.obj (JsObj.optEntry "isPublished" isPublished)))

/-- `getPublicLineup`. -/
def getPublicLineup (eventId : Option JsVal) : ClientCall :=
  clientGet ("/public/events/" ++ tmpl eventId ++ "/lineup") none

/-- `getAdminLineup`. -/
def getAdminLineup (eventId : Option JsVal) : ClientCall :=
  clientGet ("/admin/events/" ++ tmpl eventId ++ "/lineup") none

/-- `createOrUpdateDailyLineup`. -/
def createOrUpdateDailyLineup (eventId : Option JsVal) (data : JsObj) : ClientCall :=
  clientPost ("/events/" ++ tmpl eventId ++ "/daily-lineup") (some (.obj data))

/-- `getAllDailyLineups`. -/
def getAllDailyLineups (eventId : Option JsVal) : ClientCall :=
  clientGet ("/events/" ++ tmpl eventId ++ "/daily-lineup") none

/-- `getDailyLineupByDate`. -/
def getDailyLineupByDate (eventId date : Option JsVal) : ClientCall :=
  clientGet ("/events/" ++ tmpl eventId ++ "/daily-lineup/" ++ tmpl date) none

/-- `updateDailyLineup`: `date` is both a path segment and (via the
dispatcher's data object) a body member. -/
def updateDailyLineup (eventId date : Option JsVal) (data : JsObj) : ClientCall :=
  clientPut ("/events/" ++ tmpl eventId ++ "/daily-lineup/" ++ tmpl date)
    (some (.obj data))

/-- `publishDailyLineup`. -/
def publishDailyLineup (eventId date : Option JsVal) : ClientCall :=
  clientPut ("/events/" ++ tmpl eventId ++ "/daily-lineup/" ++ tmpl date ++ "/publish") none

/-- `unpublishDailyLineup`. -/
def unpublishDailyLineup (eventId date : Option JsVal) : ClientCall :=
  clientPut ("/events/" ++ tmpl eventId ++ "/daily-lineup/" ++ tmpl date ++ "/unpublish") none

/-- `deleteDailyLineup`. -/
def deleteDailyLineup (eventId date : Option JsVal) : ClientCall :=
  clientDelete ("/events/" ++ tmpl eventId ++ "/daily-lineup/" ++ tmpl date)

/-!
The dispatcher (`CallToolRequestSchema` handler in `src/index.ts`).  The
switch on the tool name is modelled as a name-keyed table; each entry is the
adapter the corresponding `case` performs on the argument bag before calling
its tool function.  Object literals whose members may be `undefined` are
built with `JsObj.ofOptList` (see the module comment).
-/

/-- The dispatch table: one entry per `case` of the switch, in source
order. -/
def dispatchTable : List (String × (JsObj → ClientCall)) := [
  ("list_users", fun args => listUsers args),
  ("get_user", fun args => getUser (args.lookup "userId")),
  ("get_user_by_email", fun args => getUserByEmail (args.lookup "email")),
  ("create_user", fun args => createUser args),
  ("update_user", fun args => updateUser (args.lookup "userId") (args.removeKey "userId")),
  ("delete_user", fun args => deleteUser (args.lookup "userId")),
  ("get_user_purchases", fun args =>
    getUserPurchases (args.lookup "userId") (args.lookup "page") (args.lookup "size")),
  ("get_user_events", fun args =>
    getUserEvents (args.lookup "userId") (args.lookup "page") (args.lookup "size")
      (args.lookup "type")),
  ("get_property_definitions", fun args => getPropertyDefinitions args),
  ("create_property_definition", fun args => createPropertyDefinition args),
  ("get_user_communication_preferences", fun args =>
    getUserCommunicationPreferences (args.lookup "userId")),
  ("update_user_communication_preferences", fun args =>
    updateUserCommunicationPreferences (args.lookup "userId") (args.removeKey "userId")),
  ("get_user_count", fun _ => getUserCount),
  ("export_users", fun args => exportUsers args),
  ("list_campaigns", fun args => listCampaigns args),
  ("get_campaign", fun args => getCampaign (args.lookup "campaignId")),
  ("create_campaign", fun args => createCampaign args),
  ("update_campaign", fun args =>
    updateCampaign (args.lookup "campaignId") (args.removeKey "campaignId")),
  ("delete_campaign", fun args => deleteCampaign (args.lookup "campaignId")),
  ("send_campaign", fun args => sendCampaign (args.lookup "campaignId")),
  ("schedule_campaign", fun args =>
    scheduleCampaign (args.lookup "campaignId") (args.lookup "scheduledAt")),
  ("pause_campaign", fun args => pauseCampaign (args.lookup "campaignId")),
  ("cancel_campaign", fun args => cancelCampaign (args.lookup "campaignId")),
  ("get_campaign_metrics", fun args => getCampaignMetrics (args.lookup "campaignId")),
  ("send_test_campaign", fun args =>
    sendTestCampaign (args.lookup "campaignId") (args.lookup "testEmails")),
  ("duplicate_campaign", fun args => duplicateCampaign (args.lookup "campaignId")),
  ("list_segments", fun args => listSegments args),
  ("get_segment", fun args => getSegment (args.lookup "segmentId")),
  ("create_segment", fun args => createSegment args),
  ("update_segment", fun args =>
    updateSegment (args.lookup "segmentId") (args.removeKey "segmentId")),
  ("delete_segment", fun args => deleteSegment (args.lookup "segmentId")),
  ("preview_segment", fun args => previewSegment (args.lookup "criteria")),
  ("execute_segment", fun args => executeSegment (args.lookup "segmentId")),
  ("list_email_templates", fun args => listEmailTemplates args),
  ("get_email_template", fun args => getEmailTemplate (args.lookup "templateId")),
  ("create_email_template", fun args => createEmailTemplate args),
  ("update_email_template", fun args =>
    updateEmailTemplate (args.lookup "templateId") (args.removeKey "templateId")),
  ("delete_email_template", fun args => deleteEmailTemplate (args.lookup "templateId")),
  ("render_email_template", fun args => renderEmailTemplate (args.lookup "templateId")),
  ("generate_email_content", fun args =>
    generateEmailContent (args.lookup "prompt") (args.removeKey "prompt")),
  ("create_performer", fun args => createPerformer args),
  ("search_spotify", fun args =>
    searchSpotify (args.lookup "query") (args.lookup "limit")),
  ("search_performers", fun args =>
    searchPerformers (args.lookup "query") (args.lookup "limit")),
  ("link_performer_spotify", fun args =>
    linkPerformerSpotify (args.lookup "performerId")
      (JsObj.ofOptList [("spotifyId", args.lookup "spotifyId"),
                        ("overrideData", args.lookup "overrideData")])),
  ("unlink_performer_from_master", fun args =>
    unlinkPerformerFromMaster (args.lookup "performerId")),
  ("update_performer", fun args =>
    updatePerformer (args.lookup "performerId") (args.removeKey "performerId")),
  ("get_performer", fun args =>
    getPerformer (args.lookup "performerId") (args.lookup "includeMaster")),
  ("list_performers", fun args =>
    listPerformers (args.lookup "page") (args.lookup "size") (args.lookup "sort")),
  ("delete_performer", fun args => deletePerformer (args.lookup "performerId")),
  ("create_performer_from_master", fun args =>
    createPerformerFromMaster (args.lookup "masterPerformerId")),
  ("get_performer_likes", fun args =>
    getPerformerLikes (args.lookup "performerId") (args.lookup "page")
      (args.lookup "size")),
  ("list_event_sessions", fun args =>
    listEventSessions (args.lookup "eventId") (args.lookup "date")
      (args.lookup "stage") (args.lookup "isPublished")),
  ("create_session", fun args =>
    createSession (args.lookup "eventId") (args.removeKey "eventId")),
  ("update_session", fun args =>
    updateSession (args.lookup "sessionId") (args.removeKey "sessionId")),
  ("get_session", fun args => getSession (args.lookup "sessionId")),
  ("delete_session", fun args => deleteSession (args.lookup "sessionId")),
  ("add_performer_to_session", fun args =>
    addPerformerToSession (args.lookup "sessionId")
      (JsObj.ofOptList [("performerId", args.lookup "performerId"),
                        ("displayOrder", args.lookup "displayOrder"),
                        ("notes", args.lookup "notes")])),
  ("remove_performer_from_session", fun args =>
    removePerformerFromSession (args.lookup "sessionId") (args.lookup "performerId")),
  ("reorder_session_performers", fun args =>
    reorderSessionPerformers (args.lookup "sessionId") (args.lookup "newOrders")),
  ("publish_session", fun args =>
    publishSession (args.lookup "sessionId") (args.lookup "isPublished")),
  ("get_public_lineup", fun args => getPublicLineup (args.lookup "eventId")),
  ("get_admin_lineup", fun args => getAdminLineup (args.lookup "eventId")),
  ("create_or_update_daily_lineup", fun args =>
    createOrUpdateDailyLineup (args.lookup "eventId")
      (JsObj.ofOptList [("date", args.lookup "date"),
                        ("performerIds", args.lookup "performerIds"),
                        ("displayOrder", args.lookup "displayOrder")])),
  ("get_all_daily_lineups", fun args => getAllDailyLineups (args.lookup "eventId")),
  ("get_daily_lineup_by_date", fun args =>
    getDailyLineupByDate (args.lookup "eventId") (args.lookup "date")),
  ("update_daily_lineup", fun args =>
    updateDailyLineup (args.lookup "eventId") (args.lookup "date")
      (JsObj.ofOptList [("date", args.lookup "date"),
                        ("performerIds", args.lookup "performerIds"),
                        ("displayOrder", args.lookup "displayOrder")])),
  ("publish_daily_lineup", fun args =>
    publishDailyLineup (args.lookup "eventId") (args.lookup "date")),
  ("unpublish_daily_lineup", fun args =>
    unpublishDailyLineup (args.lookup "eventId") (args.lookup "date")),
  ("delete_daily_lineup", fun args =>
    deleteDailyLineup (args.lookup "eventId") (args.lookup "date"))]

/-- The registered tool names, in switch order. -/
def dispatchNames : List String :=
  dispatchTable.map Prod.fst

/-- Resolution of a tool name against the switch. -/
def dispatchLookup (name : String) : Option (JsObj → ClientCall) :=
  (dispatchTable.find? fun e => e.1 == name).map Prod.snd

/-- The client call a named tool invocation issues (`none` for an
unregistered name: the default case throws before any call). -/
def toolCall (name : String) (args : JsObj) : Option ClientCall :=
  (dispatchLookup name).map fun f => f args

/-- The request body of a named tool invocation, if any. -/
def bodyOf (name : String) (args : JsObj) : Option JsVal :=
  match toolCall name args with
  | some c => c.body
  | none => none

/-- Whether the invocation's request body is an object containing member
`k`. -/
def bodyHasKey (name : String) (args : JsObj) (k : String) : Bool :=
  match bodyOf name args with
  | some (.obj o) => o.hasKey k
  | _ => false

/-- A thrown error value: `Error(message)` (from the client or a network
fault) or `McpError(code, message)` from the default case.  Both are
`instanceof Error`, so the catch block reads `.message` from either.  (The
protocol SDK's `McpError` may prefix its code onto the stored message; the
claims about it only need the message to contain the part passed here.) -/
inductive Thrown where
  | err : String → Thrown
  | mcpErr : Int → String → Thrown

/-- The `.message` the catch block extracts. -/
def Thrown.message : Thrown → String
  | .err m => m
  | .mcpErr _ m => m

/-- `ErrorCode.MethodNotFound` of JSON-RPC. -/
def methodNotFoundCode : Int := -32601

/-- The body of the `try` block for one call-tool request: resolve the name
(the default case throws `McpError(MethodNotFound, ...)` before any network
activity), perform the one client call through the `fetch` oracle (whose
`.error` is a thrown network fault), normalize the response, and yield the
result the convenience wrapper returns (`response.data`). -/
def dispatchCore (name : String) (args : JsObj)
    (respond : ClientCall → Except String HttpResponse) : Except Thrown JsVal :=
  match dispatchLookup name with
  | none => .error (.mcpErr methodNotFoundCode ("Unknown tool: " ++ name))
  | some f =>
    match respond (f args) with
    | .error m => .error (.err m)
    | .ok r =>
      match processResponse r with
      | .error m => .error (.err m)
      | .ok resp => .ok resp.data

/-- The reply of the call-tool handler: one text content block, flagged as
an error result or not (the source omits `isError` on success, i.e. it is
falsy). -/
structure ToolReply where
  text : String
  isError : Bool

/-- The whole call-tool handler: the `try` body, and the catch block that
turns any thrown error into `\x7bcontent: [\x7btype: "text", text: "Error: "
+ message\x7d], isError: true\x7d`.  Success serializes the result with
`JSON.stringify(result, null, 2)`. -/
def handleCallTool (name : String) (args : JsObj)
    (respond : ClientCall → Except String HttpResponse) : ToolReply :=
  match dispatchCore name args respond with
  | .ok result => { text := prettyStringify result 0, isError := false }
  | .error e => { text := "Error: " ++ e.message, isError := true }

/-- The `name` fields of `userToolDefinitions` (src/tools/users.ts), in
order. -/
def userToolDefinitionNames : List String :=
  ["list_users", "get_user", "get_user_by_email", "create_user", "update_user",
   "delete_user", "get_user_purchases", "get_user_events",
   "get_property_definitions", "create_property_definition",
   "get_user_communication_preferences", "update_user_communication_preferences",
   "get_user_count", "export_users"]

/-- The `name` fields of `campaignToolDefinitions` (src/tools/campaigns.ts),
in order. -/
def campaignToolDefinitionNames : List String :=
  ["list_campaigns", "get_campaign", "create_campaign", "update_campaign",
   "delete_campaign", "send_campaign", "schedule_campaign", "pause_campaign",
   "cancel_campaign", "get_campaign_metrics", "send_test_campaign",
   "duplicate_campaign", "list_segments", "get_segment", "create_segment",
   "update_segment", "delete_segment", "preview_segment", "execute_segment",
   "list_email_templates", "get_email_template", "create_email_template",
   "update_email_template", "delete_email_template", "render_email_template",
   "generate_email_content"]

/-- The `name` fields of `lineupToolDefinitions` (src/tools/lineup.ts), in
order. -/
def lineupToolDefinitionNames : List String :=
  ["create_performer", "search_spotify", "search_performers",
   "link_performer_spotify", "unlink_performer_from_master", "update_performer",
   "get_performer", "list_performers", "delete_performer",
   "create_performer_from_master", "get_performer_likes", "list_event_sessions",
   "create_session", "update_session", "get_session", "delete_session",
   "add_performer_to_session", "remove_performer_from_session",
   "reorder_session_performers", "publish_session", "get_public_lineup",
   "get_admin_lineup", "create_or_update_daily_lineup", "get_all_daily_lineups",
   "get_daily_lineup_by_date", "update_daily_lineup", "publish_daily_lineup",
   "unpublish_daily_lineup", "delete_daily_lineup"]

/-- `allToolDefinitions` (src/index.ts) is the concatenation of the three
definition lists; these are its `name` fields, what a list-tools request
advertises. -/
def allToolDefinitionNames : List String :=
  userToolDefinitionNames ++ campaignToolDefinitionNames ++ lineupToolDefinitionNames

/-- Whether a value has one of the scalar shapes the `params` record type of
`request` admits (string, number or boolean). -/
def isScalar : JsVal → Bool
  | .str _ => true
  | .num _ => true
  | .bool _ => true
  | _ => false

/-!  Helper lemmas. -/

theorem strAppendAssoc (a b c : String) : a ++ b ++ c = a ++ (b ++ c) :=
  String.ext (by simp [String.data_append, List.append_assoc])

theorem strEmptyAppend (s : String) : "" ++ s = s :=
  String.ext (by simp [String.data_append])

theorem strAppendEmpty (s : String) : s ++ "" = s :=
  String.ext (by simp [String.data_append])

theorem joinSepSplit (sep x : String) :
    ∀ l : List String, x ∈ l → ∃ pre post, joinSep sep l = pre ++ x ++ post := by
  intro l
  induction l with
  | nil => intro h; cases h
  | cons a rest ih =>
    intro h
    rcases List.mem_cons.mp h with h1 | h2
    · subst h1
      cases rest with
      | nil => exact ⟨"", "", by simp [joinSep, strEmptyAppend, strAppendEmpty]⟩
      | cons b bs =>
        refine ⟨"", sep ++ joinSep sep (b :: bs), ?_⟩
        simp [joinSep, strEmptyAppend, strAppendAssoc]
    · cases rest with
      | nil => cases h2
      | cons b bs =>
        rcases ih h2 with ⟨pre, post, hpp⟩
        refine ⟨a ++ sep ++ pre, post, ?_⟩
        simp [joinSep, hpp, strAppendAssoc]

theorem JsObj.hasKey_removeKey : ∀ (o : JsObj) (k : String),
    (o.removeKey k).hasKey k = false
  | .nil, _ => rfl
  | .cons k' v rest, k => by
    by_cases h : k' = k <;>
      simp [JsObj.removeKey, JsObj.hasKey, h, hasKey_removeKey rest k]

theorem JsObj.hasKey_append : ∀ (a b : JsObj) (k : String),
    (a.append b).hasKey k = (a.hasKey k || b.hasKey k)
  | .nil, b, k => by simp [JsObj.append, JsObj.hasKey]
  | .cons k' v rest, b, k => by
    simp [JsObj.append, JsObj.hasKey, hasKey_append rest b k, Bool.or_assoc]

theorem JsObj.hasKey_optEntry (k' k : String) (v : Option JsVal) :
    (JsObj.optEntry k' v).hasKey k = (v.isSome && decide (k' = k)) := by
  cases v <;> simp [JsObj.optEntry, JsObj.hasKey]

theorem JsObj.hasKey_ofOptList (l : List (String × Option JsVal)) (k : String) :
    (JsObj.ofOptList l).hasKey k = l.any (fun p => decide (p.1 = k) && p.2.isSome) := by
  induction l with
  | nil => rfl
  | cons p rest ih =>
    rcases p with ⟨k', v⟩
    cases v <;> simp [JsObj.ofOptList, JsObj.hasKey, ih]

theorem dispatchLookup_eq_none (name : String) (h : name ∉ dispatchNames) :
    dispatchLookup name = none := by
  have hf : dispatchTable.find? (fun e => e.1 == name) = none := by
    apply List.find?_eq_none.mpr
    intro x hx hpx
    have hx1 : x.1 = name := by simpa using hpx
    exact h (hx1 ▸ List.mem_map_of_mem Prod.fst hx)
  simp [dispatchLookup, hf]

/-!  Claim theorems. -/

/-- Claim C1, counterexample.  The claim requires the synthesized
`HTTP <status>: <statusText>` message whenever the non-2xx body is not an
object with a *string* `message`; but for the 404 body
`\x7b"message": 42\x7d` — an object whose `message` member is a number, not
a string — the code still uses that member (stringified to `"42"` by the
`Error` constructor) instead of `"HTTP 404: Not Found"`, because the guard
only tests `'message' in data`, never the member's type. -/
theorem C1_counterexample :
    processResponse ⟨404, "Not Found", true, .obj (.cons "message" (.num 42) .nil), ""⟩ =
      .error "42"
    ∧ (∀ s : String,
        JsObj.lookup (.cons "message" (.num 42) .nil) "message" ≠ some (.str s))
    ∧ ("42" : String) ≠ "HTTP 404: Not Found" :=
  ⟨rfl, fun s h => by simp [JsObj.lookup] at h, by decide⟩

/-- Claim C1, amended.  For every HTTP response: a status in the 2xx range
yields `\x7bdata, status, ok: true\x7d` with `data` the decoded body; a
status outside 2xx fails with an error whose message is the string form of
the decoded body's `message` member whenever the body is a non-null object
containing a `message` key (of any type — this is where the original claim
was too strong), and the synthesized `"HTTP <status>: <statusText>"`
otherwise. -/
theorem C1_response_contract (r : HttpResponse) :
    (200 ≤ r.status ∧ r.status ≤ 299 →
      processResponse r = .ok { data := responseData r, status := r.status, ok := true })
    ∧ (¬(200 ≤ r.status ∧ r.status ≤ 299) →
      (∀ v, messageMember (responseData r) = some v →
        processResponse r = .error (jsToString v))
      ∧ (messageMember (responseData r) = none →
        processResponse r = .error ("HTTP " ++ toString r.status ++ ": " ++ r.statusText))) := by
  constructor
  · intro h
    have hok : respOk r = true := by
      simp [respOk, h.1, h.2]
    simp [processResponse, hok]
  · intro h
    have hok : respOk r = false := by
      rw [Bool.eq_false_iff]
      intro hb
      exact h (by simpa [respOk, Bool.and_eq_true, decide_eq_true_eq] using hb)
    exact ⟨fun v hv => by simp [processResponse, hok, hv],
           fun hv => by simp [processResponse, hok, hv]⟩

/-- Witness for C1: the amended contract applied to a 204 success, a 404
with a string `message`, and a 500 with a non-JSON body. -/
theorem C1_response_contract_witness :
    ((200 ≤ 204 ∧ 204 ≤ 299) ∧
      processResponse ⟨204, "No Content", true, .null, ""⟩ = .ok ⟨.null, 204, true⟩)
    ∧ (¬(200 ≤ 404 ∧ 404 ≤ 299) ∧
      messageMember (responseData ⟨404, "Not Found", true,
        .obj (.cons "message" (.str "User not found") .nil), ""⟩) =
        some (.str "User not found") ∧
      processResponse ⟨404, "Not Found", true,
        .obj (.cons "message" (.str "User not found") .nil), ""⟩ =
        .error "User not found")
    ∧ (messageMember (responseData ⟨500, "Internal Server Error", false, .null, "oops"⟩) =
        none ∧
      processResponse ⟨500, "Internal Server Error", false, .null, "oops"⟩ =
        .error "HTTP 500: Internal Server Error") :=
  ⟨⟨by decide, (C1_response_contract ⟨204, "No Content", true, .null, ""⟩).1 (by decide)⟩,
   ⟨by decide, rfl,
    ((C1_response_contract ⟨404, "Not Found", true,
        .obj (.cons "message" (.str "User not found") .nil), ""⟩).2
      (by decide)).1 (.str "User not found") rfl⟩,
   ⟨rfl,
    ((C1_response_contract ⟨500, "Internal Server Error", false, .null, "oops"⟩).2
      (by decide)).2 rfl⟩⟩

/-- Claim C2, confirmed.  In every query-parameter mapping handed to
`request` (well-formed: record keys are unique), a key bound to `undefined`
contributes no pair at all to the constructed query, while a key bound to a
defined scalar contributes the pair `(key, String(value))`, and the rendered
query string contains its URL-encoded `key=value` component. -/
theorem C2_query_params (ps : List (String × Option JsVal)) (k : String)
    (hnd : (ps.map Prod.fst).Nodup) :
    ((k, none) ∈ ps → ∀ s, (k, s) ∉ buildQueryPairs ps)
    ∧ (∀ v, (k, some v) ∈ ps → isScalar v = true →
        (k, jsToString v) ∈ buildQueryPairs ps
        ∧ ∃ pre post, renderQuery (buildQueryPairs ps) =
            pre ++ (formEncode k ++ "=" ++ formEncode (jsToString v)) ++ post) := by
  constructor
  · intro hmem s hin
    rcases List.mem_filterMap.mp hin with ⟨⟨k1, v1⟩, hmem1, heq⟩
    cases v1 with
    | none => simp [buildQueryPairs] at heq
    | some w =>
      obtain ⟨hk, hs⟩ : k1 = k ∧ jsToString w = s := by
        simpa [buildQueryPairs] using heq
      subst hk
      have h2 := List.inj_on_of_nodup_map hnd hmem hmem1 rfl
      simp at h2
  · intro v hmem hsc
    have hin : (k, jsToString v) ∈ buildQueryPairs ps :=
      List.mem_filterMap.mpr ⟨(k, some v), hmem, rfl⟩
    refine ⟨hin, ?_⟩
    have hcomp : (formEncode k ++ "=" ++ formEncode (jsToString v)) ∈
        (buildQueryPairs ps).map (fun p => formEncode p.1 ++ "=" ++ formEncode p.2) :=
      List.mem_map_of_mem _ hin
    exact joinSepSplit "&" _ _ hcomp

/-- Witness for C2: the mapping `\x7bq: "x y", empty: undefined\x7d` — the
`empty` key is absent from the query pairs, and the `q` key appears as the
form-encoded component `q=x+y` of the rendered query string. -/
theorem C2_query_params_witness :
    (([("q", some (JsVal.str "x y")), ("empty", none)].map Prod.fst).Nodup
     ∧ isScalar (.str "x y") = true)
    ∧ (∀ s, ("empty", s) ∉ buildQueryPairs [("q", some (JsVal.str "x y")), ("empty", none)])
    ∧ ("q", "x y") ∈ buildQueryPairs [("q", some (JsVal.str "x y")), ("empty", none)]
    ∧ ∃ pre post,
        renderQuery (buildQueryPairs [("q", some (JsVal.str "x y")), ("empty", none)]) =
          pre ++ "q=x+y" ++ post :=
  ⟨⟨by decide, rfl⟩,
   (C2_query_params [("q", some (JsVal.str "x y")), ("empty", none)] "empty" (by decide)).1
     (List.mem_cons_of_mem _ (List.mem_cons_self _ _)),
   ((C2_query_params [("q", some (JsVal.str "x y")), ("empty", none)] "q" (by decide)).2
     (.str "x y") (List.mem_cons_self _ _) rfl).1,
   ((C2_query_params [("q", some (JsVal.str "x y")), ("empty", none)] "q" (by decide)).2
     (.str "x y") (List.mem_cons_self _ _) rfl).2⟩

/-- Claim C3, counterexample.  A supplied body of `false` on a POST: the
claim requires the payload to be its JSON serialization `"false"`, but the
truthiness test `options.body && method !== 'GET'` drops every falsy body,
so no payload is sent. -/
theorem C3_counterexample :
    (NeventClient.request ⟨"https://api.nevent.io", "tok"⟩ "POST" "/x"
      ⟨some (.bool false), none⟩).payload = none
    ∧ jsonStringify (.bool false) = "false"
    ∧ (none : Option String) ≠ some (jsonStringify (.bool false)) :=
  ⟨rfl, rfl, by simp⟩

/-- Claim C3, amended.  A non-GET call with a supplied *truthy* body sends
`JSON.stringify(body)` as the payload; a falsy body (`false`, `0`, `""`,
`null`) sends no payload even on non-GET methods (this is where the
original claim was too strong); GET sends no payload even when a body is
supplied; and an absent body sends no payload. -/
theorem C3_body_serialization (client : NeventClient) (method path : String)
    (body : JsVal) (params : Option (List (String × Option JsVal))) :
    (truthy body = true → method ≠ "GET" →
      (client.request method path ⟨some body, params⟩).payload = some (jsonStringify body))
    ∧ (truthy body = false →
      (client.request method path ⟨some body, params⟩).payload = none)
    ∧ (client.request "GET" path ⟨some body, params⟩).payload = none
    ∧ (client.request method path ⟨none, params⟩).payload = none := by
  refine ⟨?_, ?_, ?_, ?_⟩
  · intro ht hm
    simp [NeventClient.request, ht, bne_iff_ne, hm]
  · intro ht
    simp [NeventClient.request, ht]
  · simp [NeventClient.request]
  · simp [NeventClient.request]

/-- Witness for C3: a truthy object body on POST is serialized; the same
body on GET is not sent. -/
theorem C3_body_serialization_witness :
    (truthy (.obj (.cons "a" (.num 1) .nil)) = true ∧ "POST" ≠ "GET" ∧
      (NeventClient.request ⟨"https://api.nevent.io", "tok"⟩ "POST" "/x"
        ⟨some (.obj (.cons "a" (.num 1) .nil)), none⟩).payload = some "\x7b\"a\":1\x7d")
    ∧ (NeventClient.request ⟨"https://api.nevent.io", "tok"⟩ "GET" "/x"
        ⟨some (.obj (.cons "a" (.num 1) .nil)), none⟩).payload = none :=
  ⟨⟨rfl, by decide,
    (C3_body_serialization ⟨"https://api.nevent.io", "tok"⟩ "POST" "/x"
      (.obj (.cons "a" (.num 1) .nil)) none).1 rfl (by decide)⟩,
   (C3_body_serialization ⟨"https://api.nevent.io", "tok"⟩ "GET" "/x"
      (.obj (.cons "a" (.num 1) .nil)) none).2.2.1⟩

/-- Claim C4 (code bug).  The tenant identifier never reaches any outbound
request: the constructor reads only `baseUrl` and `jwtToken` (the
`NeventClientConfig` interface has no `tenantId` member even though
`src/index.ts` passes one), so clients built with different tenant
identifiers are identical, every request carries exactly the
`Authorization` and `Content-Type` headers, and the concrete request of
`get_user_count` under tenant `"t1"` shows no trace of the tenant in URL,
query, headers or payload. -/
theorem C4_tenant_never_forwarded :
    (∀ (base tok : String) (t1 t2 : Option String),
      NeventClient.construct ⟨base, tok, t1⟩ = NeventClient.construct ⟨base, tok, t2⟩)
    ∧ (∀ (config : NeventClientConfig) (method path : String) (options : RequestOptions),
        (NeventClient.request (NeventClient.construct config) method path options).headers =
          [("Authorization", "Bearer " ++ config.jwtToken),
           ("Content-Type", "application/json")])
    ∧ NeventClient.request
        (NeventClient.construct ⟨"https://api.nevent.io", "tok", some "t1"⟩)
        "GET" "/users/count" ⟨none, none⟩ =
      { method := "GET", url := "https://api.nevent.io/users/count", queryPairs := [],
        headers := [("Authorization", "Bearer tok"), ("Content-Type", "application/json")],
        payload := none } :=
  ⟨fun _ _ _ _ => rfl, fun _ _ _ _ => rfl, rfl⟩

/-- Claim C5, counterexample.  `create_session` pulls `eventId` out of the
argument bag but then spreads it back into the posted body
(`\x7b...data, eventId\x7d`), so the path identifier does appear inside the
request body; `update_daily_lineup` likewise sends `date` in the body while
it is also a path segment. -/
theorem C5_counterexample :
    bodyOf "create_session"
      (.cons "eventId" (.str "e1") (.cons "name" (.str "Main") .nil)) =
      some (.obj (.cons "name" (.str "Main") (.cons "eventId" (.str "e1") .nil)))
    ∧ bodyHasKey "create_session"
        (.cons "eventId" (.str "e1") (.cons "name" (.str "Main") .nil)) "eventId" = true
    ∧ bodyHasKey "update_daily_lineup"
        (.cons "eventId" (.str "e1") (.cons "date" (.str "2024-06-01")
          (.cons "performerIds" (.arr (.cons (.str "p1") .nil)) .nil))) "date" = true :=
  ⟨rfl, rfl, rfl⟩

/-- Claim C5, amended.  For every dispatched tool that extracts a
path-identifier and sends a body, the identifier is absent from the body —
except `create_session`, whose body contains `eventId` exactly when the
argument bag does, and `update_daily_lineup`, whose body contains `date`
exactly when the bag does (while `eventId` stays out of it); for
`reorder_session_performers` the body is the caller's `newOrders` value
forwarded verbatim, so `sessionId` occurs in it only if the caller nested
it there. -/
theorem C5_path_identifiers (args : JsObj) :
    bodyHasKey "update_user" args "userId" = false
    ∧ bodyHasKey "update_user_communication_preferences" args "userId" = false
    ∧ bodyHasKey "update_campaign" args "campaignId" = false
    ∧ bodyHasKey "schedule_campaign" args "campaignId" = false
    ∧ bodyHasKey "send_test_campaign" args "campaignId" = false
    ∧ bodyHasKey "update_segment" args "segmentId" = false
    ∧ bodyHasKey "update_email_template" args "templateId" = false
    ∧ bodyHasKey "update_performer" args "performerId" = false
    ∧ bodyHasKey "link_performer_spotify" args "performerId" = false
    ∧ bodyHasKey "update_session" args "sessionId" = false
    ∧ bodyHasKey "add_performer_to_session" args "sessionId" = false
    ∧ bodyHasKey "publish_session" args "sessionId" = false
    ∧ bodyHasKey "create_or_update_daily_lineup" args "eventId" = false
    ∧ bodyHasKey "update_daily_lineup" args "eventId" = false
    ∧ (bodyHasKey "reorder_session_performers" args "sessionId" =
        match args.lookup "newOrders" with
        | some (.obj o) => o.hasKey "sessionId"
        | _ => false)
    ∧ bodyHasKey "create_session" args "eventId" = (args.lookup "eventId").isSome
    ∧ bodyHasKey "update_daily_lineup" args "date" = (args.lookup "date").isSome := by
  refine ⟨?_, ?_, ?_, ?_, ?_, ?_, ?_, ?_, ?_, ?_, ?_, ?_, ?_, ?_, ?_, ?_, ?_⟩
  · exact JsObj.hasKey_removeKey args "userId"
  · exact JsObj.hasKey_removeKey args "userId"
  · exact JsObj.hasKey_removeKey args "campaignId"
  · rw [show bodyHasKey "schedule_campaign" args "campaignId" =
        (JsObj.optEntry "scheduledAt" (args.lookup "scheduledAt")).hasKey "campaignId" from rfl,
      JsObj.hasKey_optEntry]
    simp
  · rw [show bodyHasKey "send_test_campaign" args "campaignId" =
        (JsObj.optEntry "emails" (args.lookup "testEmails")).hasKey "campaignId" from rfl,
      JsObj.hasKey_optEntry]
    simp
  · exact JsObj.hasKey_removeKey args "segmentId"
  · exact JsObj.hasKey_removeKey args "templateId"
  · exact JsObj.hasKey_removeKey args "performerId"
  · rw [show bodyHasKey "link_performer_spotify" args "performerId" =
        (JsObj.ofOptList [("spotifyId", args.lookup "spotifyId"),
          ("overrideData", args.lookup "overrideData")]).hasKey "performerId" from rfl,
      JsObj.hasKey_ofOptList]
    simp
  · exact JsObj.hasKey_removeKey args "sessionId"
  · rw [show bodyHasKey "add_performer_to_session" args "sessionId" =
        (JsObj.ofOptList [("performerId", args.lookup "performerId"),
          ("displayOrder", args.lookup "displayOrder"),
          ("notes", args.lookup "notes")]).hasKey "sessionId" from rfl,
      JsObj.hasKey_ofOptList]
    simp
  · rw [show bodyHasKey "publish_session" args "sessionId" =
        (JsObj.optEntry "isPublished" (args.lookup "isPublished")).hasKey "sessionId" from rfl,
      JsObj.hasKey_optEntry]
    simp
  · rw [show bodyHasKey "create_or_update_daily_lineup" args "eventId" =
        (JsObj.ofOptList [("date", args.lookup "date"),
          ("performerIds", args.lookup "performerIds"),
          ("displayOrder", args.lookup "displayOrder")]).hasKey "eventId" from rfl,
      JsObj.hasKey_ofOptList]
    simp
  · rw [show bodyHasKey "update_daily_lineup" args "eventId" =
        (JsObj.ofOptList [("date", args.lookup "date"),
          ("performerIds", args.lookup "performerIds"),
          ("displayOrder", args.lookup "displayOrder")]).hasKey "eventId" from rfl,
      JsObj.hasKey_ofOptList]
    simp
  · unfold bodyHasKey
    rw [show bodyOf "reorder_session_performers" args = args.lookup "newOrders" from rfl]
  · rw [show bodyHasKey "create_session" args "eventId" =
        ((args.removeKey "eventId").append
          (JsObj.optEntry "eventId" (args.lookup "eventId"))).hasKey "eventId" from rfl,
      JsObj.hasKey_append, JsObj.hasKey_removeKey, JsObj.hasKey_optEntry]
    simp
  · rw [show bodyHasKey "update_daily_lineup" args "date" =
        (JsObj.ofOptList [("date", args.lookup "date"),
          ("performerIds", args.lookup "performerIds"),
          ("displayOrder", args.lookup "displayOrder")]).hasKey "date" from rfl,
      JsObj.hasKey_ofOptList]
    simp

/-- Claim C6, counterexample.  `export_users` invoked with no arguments
posts the body `\x7b\x7d`, while the defaults-supplied invocation
(`format: "csv"`) posts `\x7b"format":"csv"\x7d` — different payloads, so
the no-argument request does not behave as if the documented `csv` default
were supplied (that default exists only in the tool's JSON Schema). -/
theorem C6_counterexample :
    toolCall "export_users" JsObj.nil =
      some { method := "POST", path := "/users/export",
             body := some (.obj .nil), params := none }
    ∧ (NeventClient.request ⟨"https://api.nevent.io", "tok"⟩ "POST" "/users/export"
        ⟨some (.obj .nil), none⟩).payload = some "\x7b\x7d"
    ∧ toolCall "export_users" (.cons "format" (.str "csv") .nil) =
      some { method := "POST", path := "/users/export",
             body := some (.obj (.cons "format" (.str "csv") .nil)), params := none }
    ∧ (NeventClient.request ⟨"https://api.nevent.io", "tok"⟩ "POST" "/users/export"
        ⟨some (.obj (.cons "format" (.str "csv") .nil)), none⟩).payload =
      some "\x7b\"format\":\"csv\"\x7d"
    ∧ ("\x7b\x7d" : String) ≠ "\x7b\"format\":\"csv\"\x7d" :=
  ⟨rfl, rfl, rfl, rfl, by decide⟩

/-- Claim C6, amended.  The pagination defaults are applied in code:
`list_users` with `page`/`size` omitted puts `page=0` and `size=20` in the
query, and with no arguments at all its query is exactly those two pairs
(all optional filters omitted); `includeMaster` defaults to `false` in code.
The `overrideData` and export `format` defaults, however, live only in the
schemas: the issued requests simply omit those members when the arguments
do. -/
theorem C6_defaults (args : JsObj)
    (hp : args.lookup "page" = none) (hs : args.lookup "size" = none) :
    (("page", "0") ∈ buildQueryPairs (((listUsers args).params).getD [])
     ∧ ("size", "20") ∈ buildQueryPairs (((listUsers args).params).getD []))
    ∧ toolCall "list_users" JsObj.nil = some (listUsers JsObj.nil)
    ∧ buildQueryPairs (((listUsers JsObj.nil).params).getD []) =
        [("page", "0"), ("size", "20")]
    ∧ toolCall "get_performer" (.cons "performerId" (.str "p1") .nil) =
        some (getPerformer (some (.str "p1")) none)
    ∧ buildQueryPairs (((getPerformer (some (.str "p1")) none).params).getD []) =
        [("includeMaster", "false")]
    ∧ bodyOf "link_performer_spotify"
        (.cons "performerId" (.str "p1") (.cons "spotifyId" (.str "s1") .nil)) =
        some (.obj (.cons "spotifyId" (.str "s1") .nil))
    ∧ bodyOf "export_users" JsObj.nil = some (.obj .nil) := by
  refine ⟨⟨?_, ?_⟩, rfl, rfl, rfl, rfl, rfl, rfl⟩
  · exact List.mem_filterMap.mpr
      ⟨("page", some (nullish (args.lookup "page") (.num 0))),
       List.mem_cons_self _ _, by rw [hp]; rfl⟩
  · exact List.mem_filterMap.mpr
      ⟨("size", some (nullish (args.lookup "size") (.num 20))),
       List.mem_cons_of_mem _ (List.mem_cons_self _ _), by rw [hs]; rfl⟩

/-- Witness for C6: the amended claim applied to the empty argument bag. -/
theorem C6_defaults_witness :
    (JsObj.nil.lookup "page" = none ∧ JsObj.nil.lookup "size" = none)
    ∧ ("page", "0") ∈ buildQueryPairs (((listUsers JsObj.nil).params).getD [])
    ∧ ("size", "20") ∈ buildQueryPairs (((listUsers JsObj.nil).params).getD []) :=
  ⟨⟨rfl, rfl⟩, (C6_defaults JsObj.nil rfl rfl).1.1, (C6_defaults JsObj.nil rfl rfl).1.2⟩

/-- Claim C7, confirmed.  The handler is a total function into replies:
whenever the try-block fails with any thrown error — network fault,
non-2xx transport error or the unknown-tool error — the reply is the
single-text-block error result whose text is `"Error: "` followed by the
thrown error's message, and a successful dispatch yields a non-error reply;
in particular a 404 whose JSON body is `\x7b"message":"User not found"\x7d`
yields exactly the reply text `"Error: User not found"`. -/
theorem C7_error_replies :
    (∀ (name : String) (args : JsObj) (respond : ClientCall → Except String HttpResponse)
        (e : Thrown), dispatchCore name args respond = .error e →
      handleCallTool name args respond = ⟨"Error: " ++ e.message, true⟩)
    ∧ (∀ (name : String) (args : JsObj) (respond : ClientCall → Except String HttpResponse)
        (v : JsVal), dispatchCore name args respond = .ok v →
      handleCallTool name args respond = ⟨prettyStringify v 0, false⟩)
    ∧ handleCallTool "get_user" (.cons "userId" (.str "u1") .nil)
        (fun _ => .ok ⟨404, "Not Found", true,
          .obj (.cons "message" (.str "User not found") .nil), ""⟩) =
      ⟨"Error: User not found", true⟩ := by
  refine ⟨?_, ?_, rfl⟩
  · intro name args respond e he
    simp [handleCallTool, he]
  · intro name args respond v hv
    simp [handleCallTool, hv]

/-- Witness for C7: the 404 `"User not found"` failure run through the
handler. -/
theorem C7_error_replies_witness :
    dispatchCore "get_user" (.cons "userId" (.str "u1") .nil)
      (fun _ => .ok ⟨404, "Not Found", true,
        .obj (.cons "message" (.str "User not found") .nil), ""⟩) =
      .error (.err "User not found")
    ∧ handleCallTool "get_user" (.cons "userId" (.str "u1") .nil)
        (fun _ => .ok ⟨404, "Not Found", true,
          .obj (.cons "message" (.str "User not found") .nil), ""⟩) =
      ⟨"Error: " ++ Thrown.message (.err "User not found"), true⟩ :=
  ⟨rfl, C7_error_replies.1 "get_user" (.cons "userId" (.str "u1") .nil) _
    (.err "User not found") rfl⟩

/-- Claim C8, confirmed.  Dispatching a name outside the dispatch table
fails with the `McpError(MethodNotFound, "Unknown tool: <name>")` error —
whose message contains the offending name — before any client call (the
outcome is the same for every transport oracle), and the reply is the
corresponding error result. -/
theorem C8_unknown_tool (name : String) (args : JsObj)
    (respond : ClientCall → Except String HttpResponse)
    (h : name ∉ dispatchNames) :
    dispatchCore name args respond =
      .error (.mcpErr methodNotFoundCode ("Unknown tool: " ++ name))
    ∧ (∃ pre post, ("Unknown tool: " ++ name) = pre ++ name ++ post)
    ∧ (∀ respond2, handleCallTool name args respond = handleCallTool name args respond2)
    ∧ handleCallTool name args respond =
        ⟨"Error: " ++ ("Unknown tool: " ++ name), true⟩ := by
  have hl : dispatchLookup name = none := dispatchLookup_eq_none name h
  refine ⟨by simp [dispatchCore, hl],
    ⟨"Unknown tool: ", "", (strAppendEmpty _).symm⟩, ?_, ?_⟩
  · intro r2
    simp [handleCallTool, dispatchCore, hl]
  · simp [handleCallTool, dispatchCore, hl, Thrown.message]

/-- Witness for C8: the unregistered name `frobnicate`. -/
theorem C8_unknown_tool_witness :
    "frobnicate" ∉ dispatchNames
    ∧ dispatchCore "frobnicate" .nil (fun _ => .error "network down") =
        .error (.mcpErr methodNotFoundCode "Unknown tool: frobnicate")
    ∧ handleCallTool "frobnicate" .nil (fun _ => .error "network down") =
        ⟨"Error: Unknown tool: frobnicate", true⟩ :=
  ⟨by decide,
   (C8_unknown_tool "frobnicate" .nil (fun _ => .error "network down") (by decide)).1,
   (C8_unknown_tool "frobnicate" .nil (fun _ => .error "network down") (by decide)).2.2.2⟩

/-- Claim C9, confirmed.  `update_user` with `\x7buserId: "u1", name:
"Ann"\x7d` issues `PUT /users/u1` whose body is exactly
`\x7bname: "Ann"\x7d` (payload `\x7b"name":"Ann"\x7d`), and `userId` does
not appear inside the body. -/
theorem C9_update_user :
    toolCall "update_user" (.cons "userId" (.str "u1") (.cons "name" (.str "Ann") .nil)) =
      some { method := "PUT", path := "/users/u1",
             body := some (.obj (.cons "name" (.str "Ann") .nil)), params := none }
    ∧ (NeventClient.request ⟨"https://api.nevent.io", "tok"⟩ "PUT" "/users/u1"
        ⟨some (.obj (.cons "name" (.str "Ann") .nil)), none⟩).payload =
      some "\x7b\"name\":\"Ann\"\x7d"
    ∧ bodyHasKey "update_user"
        (.cons "userId" (.str "u1") (.cons "name" (.str "Ann") .nil)) "userId" = false :=
  ⟨rfl, rfl, rfl⟩

/-- Claim C10, confirmed.  The typed `resumeCampaign` function (POST
`/campaigns/\x7bid\x7d/resume`) exists, but `resume_campaign` is in neither
the advertised tool catalog nor the dispatch table, so a call-tool request
with that name always produces the unknown-tool error reply, independent of
the transport oracle — no request ever reaches the resume endpoint. -/
theorem C10_resume_campaign :
    resumeCampaign (some (.str "c1")) =
      { method := "POST", path := "/campaigns/c1/resume", body := none, params := none }
    ∧ "resume_campaign" ∉ allToolDefinitionNames
    ∧ "resume_campaign" ∉ dispatchNames
    ∧ ∀ (args : JsObj) (respond : ClientCall → Except String HttpResponse),
        dispatchCore "resume_campaign" args respond =
          .error (.mcpErr methodNotFoundCode "Unknown tool: resume_campaign")
        ∧ (∀ respond2, handleCallTool "resume_campaign" args respond =
            handleCallTool "resume_campaign" args respond2)
        ∧ handleCallTool "resume_campaign" args respond =
            ⟨"Error: Unknown tool: resume_campaign", true⟩ :=
  ⟨rfl, by decide, by decide, fun args respond => ⟨rfl, fun r2 => rfl, rfl⟩⟩

end Nevent
